import Mathlib

/-!
Verification of the SilverLine order-fulfillment pipeline.

This file gives a shallow embedding of the payment service
(`createPaymentOrder`, `processPayment`, `getPaymentDetails`, `refundPayment`)
and of the Delhivery courier adapter (`DelhiveryService.createShipment`).

The Prisma-backed database is modelled as explicit state: lists of
Payment, Order and Product rows, plus a log of shipment-creation calls.
Each service function becomes a pure state-transition function
`DB -> DB x Result`.

External collaborators that are not part of this repository slice are
abstracted as parameters:
  - `verifyRazorpayPayment` (lib/razorpay.ts) is a pure boolean check on the
    `(razorpay_order_id, razorpay_payment_id, razorpay_signature)` triple; its
    result on the given triple is passed in as a `Bool` parameter `verify`.
  - `createDelhiveryShipment` (lib/services/delhivery.ts) is a remote call
    whose outcome (success, structured failure, or thrown exception) is passed
    in as a `ShipmentOutcome` parameter; the code wraps the call in try/catch
    and ignores the outcome, which the embedding mirrors.
  - `createRazorpayOrder` (lib/razorpay.ts) similarly becomes a
    `RazorpayOrderOutcome` parameter of `createPaymentOrder`.

Prisma `update` calls use the primary key `id`; the embedding updates every
row with the matching id (identical behaviour, since ids are primary keys).
A Prisma `update` whose row is absent throws; where that matters the embedding
models the throw explicitly.  `processPayment` additionally takes an
`orderUpdateFault` flag modelling a database write failure (a thrown error) on
the `prisma.order.update` call, which the source catches in its outer
try/catch; faults on other writes are not needed by any claim.
-/

/-- Payment.status values from the schema. -/
inductive PaymentStatus where
  | PENDING
  | COMPLETED
  | FAILED
  | REFUNDED
  deriving DecidableEq, Repr

/-- Order.status values from the schema. -/
inductive OrderStatus where
  | PENDING
  | CONFIRMED
  | FAILED
  | REFUNDED
  deriving DecidableEq, Repr

/-- One OrderItem row: what the stock-decrement loop reads. -/
structure OrderItem where
  productId : Nat
  quantity : Nat
  deriving DecidableEq, Repr

/-- One Order row with its items (`include: orderItems`). -/
structure Order where
  id : Nat
  status : OrderStatus
  orderItems : List OrderItem
  deriving DecidableEq, Repr

/-- One Payment row: the fields the payment service reads or writes.
`transactionId` stores the gateway (Razorpay) order id and is nullable.
`paidAt` is a nullable timestamp, modelled as `Option Nat`. -/
structure Payment where
  id : Nat
  orderId : Nat
  transactionId : Option String
  status : PaymentStatus
  paidAt : Option Nat
  deriving DecidableEq, Repr

/-- One Product row; `stock` is a database integer, which the unguarded
`decrement` write can drive negative, so it is modelled as `Int`. -/
structure Product where
  id : Nat
  stock : Int
  deriving DecidableEq, Repr

/-- Outcome of one `createDelhiveryShipment` call as observed by
`processPayment`: a success with a tracking number, a structured failure, or a
thrown exception. -/
inductive ShipmentOutcome where
  | ok (trackingNumber : String)
  | failed (error : String)
  | threw (message : String)
  deriving DecidableEq, Repr

/-- The mutable database state plus a log of shipment-creation calls made. -/
structure DB where
  payments : List Payment
  orders : List Order
  products : List Product
  shipmentLog : List ShipmentOutcome
  deriving DecidableEq, Repr

/-- Argument record of `processPayment` (interface ProcessPaymentData).
Optional string fields are `Option String`; TypeScript truthiness makes the
empty string count as absent. -/
structure ProcessPaymentData where
  orderId : Nat
  paymentMethod : String
  razorpayOrderId : Option String
  razorpayPaymentId : Option String
  razorpaySignature : Option String
  amount : Int
  deriving DecidableEq, Repr

/-- Result of `processPayment`, flattened: `success`, the `error` field of the
two failure returns, the `paymentStatus` field of the normal return, and the
user message of the normal return. -/
structure ProcessResult where
  success : Bool
  error : Option String
  paymentStatus : Option PaymentStatus
  message : Option String
  deriving DecidableEq, Repr

/-- TypeScript truthiness of an optional string: `undefined` and the empty
string are falsy. -/
def truthyStr : Option String → Bool
  | none => false
  | some s => !s.isEmpty

/-- The `findFirst` filter of `processPayment`:
`where { orderId: data.orderId, transactionId: data.razorpayOrderId }`.
Prisma drops a filter whose value is `undefined`, so a missing
`razorpayOrderId` leaves only the `orderId` condition. -/
def paymentMatches (d : ProcessPaymentData) (p : Payment) : Bool :=
  p.orderId == d.orderId &&
    (match d.razorpayOrderId with
     | none => true
     | some t => p.transactionId == some t)

/-- The guard deciding COMPLETED in `processPayment`:
method is razorpay, both optional fields are truthy, and
`verifyRazorpayPayment` (whose boolean result is the parameter `verify`)
returned true. -/
def verificationPasses (d : ProcessPaymentData) (verify : Bool) : Bool :=
  (d.paymentMethod == "razorpay") && truthyStr d.razorpayPaymentId &&
    truthyStr d.razorpaySignature && verify

/-- Prisma `payment.update where id` writing `status` and `paidAt`
(the primary key makes the map touch exactly the targeted row). -/
def writePaymentStatus (ps : List Payment) (pid : Nat) (st : PaymentStatus)
    (pd : Option Nat) : List Payment :=
  ps.map (fun x => if x.id == pid then { x with status := st, paidAt := pd } else x)

/-- Prisma `order.update where id` writing `status`. -/
def writeOrderStatus (os : List Order) (oid : Nat) (st : OrderStatus) : List Order :=
  os.map (fun x => if x.id == oid then { x with status := st } else x)

/-- One iteration of the stock-decrement loop:
`prisma.product.update where id, data: { stock: { decrement: quantity } }`. -/
def decrementStock (ps : List Product) (pid : Nat) (q : Nat) : List Product :=
  ps.map (fun pr => if pr.id == pid then { pr with stock := pr.stock - (q : Int) } else pr)

/-- The stock-decrement loop over `updatedOrder.orderItems`, one write per
item, in order. -/
def decrementStocks : List Product → List OrderItem → List Product
  | ps, [] => ps
  | ps, it :: rest => decrementStocks (decrementStock ps it.productId it.quantity) rest

/-- Embedding of `processPayment`.
`verify` is the value `verifyRazorpayPayment` returns on the given triple,
`ship` the outcome of the `createDelhiveryShipment` call (appended to the log
when the call is made, then ignored by the inner try/catch exactly as in the
source), `orderUpdateFault` injects a thrown write error on
`prisma.order.update` (caught by the outer try/catch), and `now` is the
timestamp `new Date()` stored into `paidAt`. -/
def processPayment (verify : Bool) (ship : ShipmentOutcome)
    (orderUpdateFault : Bool) (now : Nat) (db : DB) (d : ProcessPaymentData) :
    DB × ProcessResult :=
  match db.payments.find? (paymentMatches d) with
  | none =>
      (db, { success := false, error := some "Payment record not found",
             paymentStatus := none, message := none })
  | some payment =>
      let ok := verificationPasses d verify
      let pStatus : PaymentStatus := if ok then .COMPLETED else .FAILED
      let oStatus : OrderStatus := if ok then .CONFIRMED else .FAILED
      let newPaidAt : Option Nat := if ok then some now else none
      let db1 : DB :=
        { db with payments := writePaymentStatus db.payments payment.id pStatus newPaidAt }
      if orderUpdateFault then
        (db1, { success := false, error := some "Failed to process payment",
                paymentStatus := none, message := none })
      else
        match db1.orders.find? (fun o => o.id == d.orderId) with
        | none =>
            (db1, { success := false, error := some "Failed to process payment",
                    paymentStatus := none, message := none })
        | some ord =>
            let db2 : DB :=
              { db1 with orders := writeOrderStatus db1.orders d.orderId oStatus }
            if ok then
              let db3 : DB :=
                { db2 with products := decrementStocks db2.products ord.orderItems }
              let db4 : DB := { db3 with shipmentLog := db3.shipmentLog ++ [ship] }
              (db4, { success := true, error := none,
                      paymentStatus := some .COMPLETED,
                      message := some "Payment successful! Your order has been confirmed." })
            else
              (db2, { success := false, error := none,
                      paymentStatus := some .FAILED,
                      message := some "Payment verification failed. Please try again." })

/-- Argument record of `createPaymentOrder` (the fields the embedded logic
reads). -/
structure CreatePaymentOrderData where
  orderId : Nat
  amount : Int
  currency : String
  deriving DecidableEq, Repr

/-- Outcome of the `createRazorpayOrder` gateway call: an order handle id, or
a structured failure. -/
inductive RazorpayOrderOutcome where
  | ok (rzpOrderId : String)
  | err (msg : String)
  deriving DecidableEq, Repr

/-- Result of `createPaymentOrder`, flattened. -/
structure CreatePaymentOrderResult where
  success : Bool
  error : Option String
  createdPaymentId : Option Nat
  deriving DecidableEq, Repr

/-- Embedding of `createPaymentOrder`: look up the order, call the gateway
(outcome passed in), and on success create a Payment row with status PENDING
and no `paidAt`.  `newPaymentId` is the autoincrement id the insert assigns. -/
def createPaymentOrder (rzp : RazorpayOrderOutcome) (newPaymentId : Nat)
    (db : DB) (d : CreatePaymentOrderData) : DB × CreatePaymentOrderResult :=
  match db.orders.find? (fun o => o.id == d.orderId) with
  | none => (db, { success := false, error := some "Order not found",
                   createdPaymentId := none })
  | some order =>
      match rzp with
      | .err e => (db, { success := false, error := some e, createdPaymentId := none })
      | .ok rzpId =>
          let payment : Payment :=
            { id := newPaymentId, orderId := order.id, transactionId := some rzpId,
              status := .PENDING, paidAt := none }
          ({ db with payments := db.payments ++ [payment] },
           { success := true, error := none, createdPaymentId := some newPaymentId })

/-- Result of `getPaymentDetails`. -/
structure PaymentDetailsResult where
  success : Bool
  payment : Option Payment
  error : Option String
  deriving DecidableEq, Repr

/-- Embedding of `getPaymentDetails`: a single `findFirst where { orderId }`
returned as `{ success: true, payment }` (payment may be null); the catch
branch fires only when the lookup itself throws, modelled by `lookupFault`
carrying the thrown message. -/
def getPaymentDetails (lookupFault : Option String) (db : DB) (orderId : Nat) :
    PaymentDetailsResult :=
  match lookupFault with
  | some m => { success := false, payment := none, error := some m }
  | none =>
      { success := true,
        payment := db.payments.find? (fun p => p.orderId == orderId),
        error := none }

/-- Result of `refundPayment`. -/
structure RefundResult where
  success : Bool
  error : Option String
  message : Option String
  deriving DecidableEq, Repr

/-- Embedding of `refundPayment`: look up the payment by id, refuse unless its
status is COMPLETED, then set Payment.status to REFUNDED (leaving `paidAt`
untouched, as the source does) and set the owning Order.status to REFUNDED.
The `order.update` throws if the order row is missing (caught by the outer
try/catch); the foreign key makes that impossible in the real database. -/
def refundPayment (db : DB) (paymentId : Nat) : DB × RefundResult :=
  match db.payments.find? (fun p => p.id == paymentId) with
  | none => (db, { success := false, error := some "Payment not found", message := none })
  | some payment =>
      if payment.status == PaymentStatus.COMPLETED then
        let refunded : List Payment :=
          db.payments.map (fun q =>
            if q.id == paymentId then { q with status := .REFUNDED } else q)
        let db1 : DB := { db with payments := refunded }
        match db1.orders.find? (fun o => o.id == payment.orderId) with
        | none =>
            (db1, { success := false, error := some "Failed to refund payment",
                    message := none })
        | some _ =>
            ({ db1 with orders := writeOrderStatus db1.orders payment.orderId .REFUNDED },
             { success := true, error := none,
               message := some "Payment refunded successfully" })
      else
        (db, { success := false, error := some "Payment is not completed", message := none })

/-- Raw JSON value in the `serviceable` field of a courier package: the source
accepts either the string "true" or the boolean true. -/
inductive RawBoolish where
  | rTrue
  | rFalse
  | rStr (s : String)
  | rMissing
  deriving DecidableEq, Repr

/-- One raw package object in the courier response, with the fields
`createShipment` reads when normalizing. -/
structure RawPackage where
  waybill : String
  refnum : String
  cod_amount : Option String
  payment_mode : String
  serviceable : RawBoolish
  status : String
  message : Option String
  deriving DecidableEq, Repr

/-- Raw body of the courier create-shipment response: an optional `packages`
array and an optional `error` field. -/
structure RawCreateResponse where
  packages : Option (List RawPackage)
  error : Option String
  deriving DecidableEq, Repr

/-- Outcome of the underlying HTTP call made by `makeRequest`: the promise
resolves with a (possibly null) body, or rejects (network error, timeout,
error status) with a message. -/
inductive CourierHttpOutcome where
  | respond (resp : Option RawCreateResponse)
  | reject (msg : String)
  deriving DecidableEq, Repr

/-- A normalized package as returned by `createShipment` on success. -/
structure NormalizedPackage where
  waybill : String
  refnum : String
  cod_amount : Option String
  payment_mode : String
  serviceable : Bool
  status : String
  message : Option String
  deriving DecidableEq, Repr

/-- Result type of `DelhiveryService.createShipment`
(interface DelhiveryShipmentResponse). -/
structure DelhiveryShipmentResponse where
  success : Bool
  packages : List NormalizedPackage
  error : Option String
  deriving DecidableEq, Repr

/-- A pickup or delivery address (interface DelhiveryAddress). -/
structure DelhiveryAddress where
  name : String
  address : String
  city : String
  state : String
  pin : String
  country : String
  phone : String
  email : Option String
  deriving DecidableEq, Repr

/-- One shipment entry of the create-shipment request, with its required
fields (interface DelhiveryShipmentRequest, `shipments` element). -/
structure DelhiveryShipmentItem where
  name : String
  add : String
  city : String
  state : String
  country : String
  pin : String
  phone : String
  order : String
  products_desc : String
  weight : String
  payment_mode : String
  collectable_amount : Option String
  deriving DecidableEq, Repr

/-- The create-shipment request body (interface DelhiveryShipmentRequest). -/
structure DelhiveryShipmentRequest where
  pickup_location : DelhiveryAddress
  shipments : List DelhiveryShipmentItem
  deriving DecidableEq, Repr

/-- Message of the error rethrown by `makeRequest` when the HTTP call fails:
a fixed prefix followed by the underlying error text. -/
def makeRequestErrorMessage (m : String) : String :=
  "Delhivery API Error: " ++ m

/-- Normalization of one raw package into the application vocabulary, as done
by the `map` inside `createShipment`; `serviceable` compares the raw value
against the string "true" or the boolean true. -/
def normalizePackage (p : RawPackage) : NormalizedPackage :=
  { waybill := p.waybill, refnum := p.refnum, cod_amount := p.cod_amount,
    payment_mode := p.payment_mode,
    serviceable :=
      (match p.serviceable with
       | .rStr s => s == "true"
       | .rTrue => true
       | _ => false),
    status := p.status, message := p.message }

namespace DelhiveryService

/-- Embedding of `DelhiveryService.createShipment`.  The HTTP outcome is a
parameter.  A rejected call makes `makeRequest` rethrow with the prefixed
message, caught by the method and turned into a structured failure.  A
response with a non-empty `packages` array is normalized into a success; a
truthy `error` field (a non-empty string) is returned as a structured failure;
every other shape throws "Invalid response format from Delhivery", which the
catch turns into a structured failure.  Totality of this function is the
never-throws guarantee. -/
def createShipment (_shipmentData : DelhiveryShipmentRequest)
    (outcome : CourierHttpOutcome) : DelhiveryShipmentResponse :=
  match outcome with
  | .reject m =>
      { success := false, packages := [], error := some (makeRequestErrorMessage m) }
  | .respond none =>
      { success := false, packages := [],
        error := some "Invalid response format from Delhivery" }
  | .respond (some resp) =>
      match resp.packages with
      | some (p :: ps) =>
          { success := true, packages := (p :: ps).map normalizePackage, error := none }
      | _ =>
          match resp.error with
          | some e =>
              if e.isEmpty then
                { success := false, packages := [],
                  error := some "Invalid response format from Delhivery" }
              else
                { success := false, packages := [], error := some e }
          | none =>
              { success := false, packages := [],
                error := some "Invalid response format from Delhivery" }

end DelhiveryService

/-- The invariant exactly as the spec states it for the Payment entity:
`paidAt` is set iff the status is COMPLETED. -/
def paidAtIffCompleted (db : DB) : Prop :=
  ∀ p ∈ db.payments, p.paidAt.isSome = true ↔ p.status = PaymentStatus.COMPLETED

instance (db : DB) : Decidable (paidAtIffCompleted db) := by
  unfold paidAtIffCompleted; infer_instance

/-- The amended per-row invariant: `paidAt` is set iff the status is
COMPLETED or REFUNDED (a refund keeps the historical payment timestamp). -/
def paidAtMatchesStatus (p : Payment) : Prop :=
  p.paidAt.isSome = true ↔
    (p.status = PaymentStatus.COMPLETED ∨ p.status = PaymentStatus.REFUNDED)

instance (p : Payment) : Decidable (paidAtMatchesStatus p) := by
  unfold paidAtMatchesStatus; infer_instance

/-- The amended invariant over the whole Payment table. -/
def paidAtInv (db : DB) : Prop :=
  ∀ p ∈ db.payments, paidAtMatchesStatus p

instance (db : DB) : Decidable (paidAtInv db) := by
  unfold paidAtInv; infer_instance

/-- Payment ids are unique, as the autoincrement primary key guarantees. -/
def paymentIdsUnique (db : DB) : Prop :=
  ∀ a ∈ db.payments, ∀ b ∈ db.payments, a.id = b.id → a = b

instance (db : DB) : Decidable (paymentIdsUnique db) := by
  unfold paymentIdsUnique; infer_instance

/-- Payment row of the spec scenario: attempt for Order 1001, gateway order
rzp_order_1, still PENDING. -/
def samplePayment : Payment :=
  { id := 1, orderId := 1001, transactionId := some "rzp_order_1",
    status := .PENDING, paidAt := none }

/-- Order 1001 with one item of quantity 3 for product 7. -/
def sampleOrder : Order :=
  { id := 1001, status := .PENDING, orderItems := [{ productId := 7, quantity := 3 }] }

/-- Product 7 with stock 10. -/
def sampleProduct : Product :=
  { id := 7, stock := 10 }

/-- Database of the spec scenario. -/
def sampleDB : DB :=
  { payments := [samplePayment], orders := [sampleOrder],
    products := [sampleProduct], shipmentLog := [] }

/-- Checkout verification request matching `samplePayment`. -/
def sampleData : ProcessPaymentData :=
  { orderId := 1001, paymentMethod := "razorpay",
    razorpayOrderId := some "rzp_order_1", razorpayPaymentId := some "pay_1",
    razorpaySignature := some "sig_1", amount := 2000 }

/-- The same request with a gateway order id that matches no Payment row. -/
def mismatchedData : ProcessPaymentData :=
  { orderId := 1001, paymentMethod := "razorpay",
    razorpayOrderId := some "rzp_other", razorpayPaymentId := some "pay_1",
    razorpaySignature := some "sig_1", amount := 2000 }

/-- A payment that has already been refunded (timestamp kept from when it was
paid). -/
def refundedPayment : Payment :=
  { id := 1, orderId := 1001, transactionId := some "rzp_order_1",
    status := .REFUNDED, paidAt := some 5 }

/-- Database holding the refunded payment. -/
def refundedDB : DB :=
  { payments := [refundedPayment], orders := [sampleOrder],
    products := [sampleProduct], shipmentLog := [] }

/-- A completed payment with its `paidAt` timestamp set. -/
def completedPayment : Payment :=
  { id := 1, orderId := 1001, transactionId := some "rzp_order_1",
    status := .COMPLETED, paidAt := some 5 }

/-- Database holding the completed payment. -/
def completedDB : DB :=
  { payments := [completedPayment], orders := [sampleOrder],
    products := [sampleProduct], shipmentLog := [] }

/-- Any row of a `writePaymentStatus` result that carries the targeted id has
the written status and paidAt. -/
theorem writePaymentStatus_mem_id (ps : List Payment) (pid : Nat) (st : PaymentStatus)
    (pd : Option Nat) (q : Payment) (hq : q ∈ writePaymentStatus ps pid st pd)
    (hid : q.id = pid) : q.status = st ∧ q.paidAt = pd := by
  unfold writePaymentStatus at hq
  rcases List.mem_map.1 hq with ⟨a, ha, rfl⟩
  by_cases h : a.id = pid
  · simp [h]
  · simp [h] at hid ⊢

/-- Any row of a `writeOrderStatus` result that carries the targeted id has
the written status. -/
theorem writeOrderStatus_mem_id (os : List Order) (oid : Nat) (st : OrderStatus)
    (q : Order) (hq : q ∈ writeOrderStatus os oid st) (hid : q.id = oid) :
    q.status = st := by
  unfold writeOrderStatus at hq
  rcases List.mem_map.1 hq with ⟨a, ha, rfl⟩
  by_cases h : a.id = oid
  · simp [h]
  · simp [h] at hid ⊢

/-- Once the Payment record is found, every branch of `processPayment`
(including an injected order-write fault and a missing order row) leaves the
Payment table equal to the single status-and-paidAt write decided by the
verification guard. -/
theorem processPayment_payments_eq (verify : Bool) (ship : ShipmentOutcome)
    (fault : Bool) (now : Nat) (db : DB) (d : ProcessPaymentData) (p : Payment)
    (hp : db.payments.find? (paymentMatches d) = some p) :
    (processPayment verify ship fault now db d).1.payments =
      writePaymentStatus db.payments p.id
        (if verificationPasses d verify then .COMPLETED else .FAILED)
        (if verificationPasses d verify then some now else none) := by
  unfold processPayment
  rw [hp]
  cases fault with
  | true => simp
  | false =>
    cases ho : db.orders.find? (fun o => o.id == d.orderId) with
    | none => simp [ho]
    | some ord =>
      cases hok : verificationPasses d verify with
      | true => simp [ho, hok]
      | false => simp [ho, hok]

/-- Full evaluation of `processPayment` on the fail-closed path: payment and
order are written FAILED, products and the shipment log are untouched, and
the failure result is returned. -/
theorem processPayment_eq_of_not_verified (verify : Bool) (ship : ShipmentOutcome)
    (now : Nat) (db : DB) (d : ProcessPaymentData) (p : Payment) (o : Order)
    (hp : db.payments.find? (paymentMatches d) = some p)
    (ho : db.orders.find? (fun x => x.id == d.orderId) = some o)
    (hv : verificationPasses d verify = false) :
    processPayment verify ship false now db d =
      ({ payments := writePaymentStatus db.payments p.id .FAILED none,
         orders := writeOrderStatus db.orders d.orderId .FAILED,
         products := db.products, shipmentLog := db.shipmentLog },
       { success := false, error := none, paymentStatus := some .FAILED,
         message := some "Payment verification failed. Please try again." }) := by
  unfold processPayment
  rw [hp]
  simp [ho, hv]

/-- Full evaluation of `processPayment` on the verified path: payment
COMPLETED with paidAt set, order CONFIRMED, one stock decrement per item, one
shipment-creation call logged, and the success result returned. -/
theorem processPayment_eq_of_verified (verify : Bool) (ship : ShipmentOutcome)
    (now : Nat) (db : DB) (d : ProcessPaymentData) (p : Payment) (o : Order)
    (hp : db.payments.find? (paymentMatches d) = some p)
    (ho : db.orders.find? (fun x => x.id == d.orderId) = some o)
    (hv : verificationPasses d verify = true) :
    processPayment verify ship false now db d =
      ({ payments := writePaymentStatus db.payments p.id .COMPLETED (some now),
         orders := writeOrderStatus db.orders d.orderId .CONFIRMED,
         products := decrementStocks db.products o.orderItems,
         shipmentLog := db.shipmentLog ++ [ship] },
       { success := true, error := none, paymentStatus := some .COMPLETED,
         message := some "Payment successful! Your order has been confirmed." }) := by
  unfold processPayment
  rw [hp]
  simp [ho, hv]

/-- When the `(orderId, razorpayOrderId)` lookup finds no Payment row,
`processPayment` returns the not-found failure and the state is untouched. -/
theorem processPayment_not_found (verify : Bool) (ship : ShipmentOutcome)
    (fault : Bool) (now : Nat) (db : DB) (d : ProcessPaymentData)
    (hp : db.payments.find? (paymentMatches d) = none) :
    processPayment verify ship fault now db d =
      (db, { success := false, error := some "Payment record not found",
             paymentStatus := none, message := none }) := by
  unfold processPayment
  rw [hp]

/-- When the payment id lookup finds no row, `refundPayment` fails and leaves
the state untouched. -/
theorem refundPayment_not_found (db : DB) (rpid : Nat)
    (hp : db.payments.find? (fun p => p.id == rpid) = none) :
    refundPayment db rpid =
      (db, { success := false, error := some "Payment not found", message := none }) := by
  unfold refundPayment
  rw [hp]

/-- A refund request against a payment that is not COMPLETED fails and leaves
the state untouched. -/
theorem refundPayment_eq_of_not_completed (db : DB) (rpid : Nat) (payment : Payment)
    (hp : db.payments.find? (fun p => p.id == rpid) = some payment)
    (hc : payment.status ≠ PaymentStatus.COMPLETED) :
    refundPayment db rpid =
      (db, { success := false, error := some "Payment is not completed",
             message := none }) := by
  unfold refundPayment
  rw [hp]
  simp [hc]

/-- On the refunding path the Payment table becomes the single
status-to-REFUNDED write (paidAt untouched), whether or not the order row is
found. -/
theorem refundPayment_payments_eq (db : DB) (rpid : Nat) (payment : Payment)
    (hp : db.payments.find? (fun p => p.id == rpid) = some payment)
    (hc : payment.status = PaymentStatus.COMPLETED) :
    (refundPayment db rpid).1.payments =
      db.payments.map (fun q =>
        if q.id == rpid then { q with status := .REFUNDED } else q) := by
  unfold refundPayment
  rw [hp]
  simp only [hc]
  cases ho : db.orders.find? (fun o => o.id == payment.orderId) <;> simp [ho]

/-- `createPaymentOrder` preserves the amended paidAt invariant: the new row
is PENDING with no paidAt. -/
theorem createPaymentOrder_preserves_paidAtInv (db : DB) (hinv : paidAtInv db)
    (rzp : RazorpayOrderOutcome) (npid : Nat) (cd : CreatePaymentOrderData) :
    paidAtInv (createPaymentOrder rzp npid db cd).1 := by
  unfold createPaymentOrder
  cases ho : db.orders.find? (fun o => o.id == cd.orderId) with
  | none => exact hinv
  | some order =>
    cases rzp with
    | err e => exact hinv
    | ok rzpId =>
      unfold paidAtInv
      intro p hp
      simp at hp
      rcases hp with hp | hp
      · exact hinv p hp
      · subst hp
        unfold paidAtMatchesStatus
        simp

/-- `processPayment` preserves the amended paidAt invariant: it writes
COMPLETED together with a timestamp and FAILED together with null. -/
theorem processPayment_preserves_paidAtInv (db : DB) (hinv : paidAtInv db)
    (verify : Bool) (ship : ShipmentOutcome) (fault : Bool) (now : Nat)
    (d : ProcessPaymentData) :
    paidAtInv (processPayment verify ship fault now db d).1 := by
  cases hp : db.payments.find? (paymentMatches d) with
  | none =>
    rw [processPayment_not_found verify ship fault now db d hp]
    exact hinv
  | some p =>
    unfold paidAtInv
    intro q hq
    rw [processPayment_payments_eq verify ship fault now db d p hp] at hq
    unfold writePaymentStatus at hq
    rcases List.mem_map.1 hq with ⟨a, ha, rfl⟩
    by_cases h : a.id = p.id
    · unfold paidAtMatchesStatus
      cases hok : verificationPasses d verify <;> simp [h, hok]
    · simp [h]
      exact hinv a ha

/-- `refundPayment` preserves the amended paidAt invariant: the refunded row
was COMPLETED, so its kept paidAt stays justified by the REFUNDED status;
uniqueness of payment ids (the primary key) pins the refunded row down. -/
theorem refundPayment_preserves_paidAtInv (db : DB) (hinv : paidAtInv db)
    (hu : paymentIdsUnique db) (rpid : Nat) :
    paidAtInv (refundPayment db rpid).1 := by
  cases hp : db.payments.find? (fun p => p.id == rpid) with
  | none =>
    rw [refundPayment_not_found db rpid hp]
    exact hinv
  | some payment =>
    by_cases hc : payment.status = PaymentStatus.COMPLETED
    · unfold paidAtInv
      intro q hq
      rw [refundPayment_payments_eq db rpid payment hp hc] at hq
      rcases List.mem_map.1 hq with ⟨a, ha, rfl⟩
      by_cases h : a.id = rpid
      · have hpm : payment ∈ db.payments := List.mem_of_find?_eq_some hp
        have hpid : payment.id = rpid := by simpa using List.find?_some hp
        have hap : a = payment := hu a ha payment hpm (by rw [h, hpid])
        subst hap
        have hpaid : a.paidAt.isSome = true := (hinv a ha).2 (Or.inl hc)
        unfold paidAtMatchesStatus
        simp [h, hpaid]
      · simp [h]
        exact hinv a ha
    · rw [refundPayment_eq_of_not_completed db rpid payment hp hc]
      exact hinv

/-- The message of the error `makeRequest` rethrows is never empty. -/
theorem makeRequestErrorMessage_ne_empty (m : String) :
    makeRequestErrorMessage m ≠ "" := by
  intro h
  have hl := congrArg String.length h
  rw [makeRequestErrorMessage] at hl
  rw [String.length_append] at hl
  simp at hl
  exact absurd hl.1 (by decide)

/-- C1: once the Payment record is found (and the order row exists, as the
foreign key guarantees), `processPayment` sets Payment.status to COMPLETED
exactly when the method is razorpay, both `razorpayPaymentId` and
`razorpaySignature` are present (truthy), and `verifyRazorpayPayment` returns
true; on every other path Payment.status and Order.status are written FAILED,
no stock is decremented and no shipment-creation call is made. -/
theorem processPayment_completed_only_when_verified
    (verify : Bool) (ship : ShipmentOutcome) (now : Nat) (db : DB)
    (d : ProcessPaymentData) (p : Payment) (o : Order)
    (hp : db.payments.find? (paymentMatches d) = some p)
    (ho : db.orders.find? (fun x => x.id == d.orderId) = some o) :
    (∀ q ∈ (processPayment verify ship false now db d).1.payments, q.id = p.id →
        q.status = (if verificationPasses d verify then PaymentStatus.COMPLETED
                    else PaymentStatus.FAILED)) ∧
    (verificationPasses d verify = false →
       (∀ x ∈ (processPayment verify ship false now db d).1.orders, x.id = d.orderId →
           x.status = OrderStatus.FAILED) ∧
       (processPayment verify ship false now db d).1.products = db.products ∧
       (processPayment verify ship false now db d).1.shipmentLog = db.shipmentLog) := by
  constructor
  · intro q hq hid
    rw [processPayment_payments_eq verify ship false now db d p hp] at hq
    exact (writePaymentStatus_mem_id _ _ _ _ q hq hid).1
  · intro hv
    rw [processPayment_eq_of_not_verified verify ship now db d p o hp ho hv]
    refine ⟨?_, rfl, rfl⟩
    intro x hx hid
    exact writeOrderStatus_mem_id _ _ _ x hx hid

/-- Witness for C1 at the sample scenario with a failing verification: the
products and the shipment log are untouched. -/
theorem processPayment_completed_only_when_verified_witness :
    (processPayment false (ShipmentOutcome.ok "w") false 0 sampleDB sampleData).1.products
        = sampleDB.products ∧
    (processPayment false (ShipmentOutcome.ok "w") false 0 sampleDB sampleData).1.shipmentLog
        = sampleDB.shipmentLog := by
  have h := processPayment_completed_only_when_verified false (ShipmentOutcome.ok "w") 0
    sampleDB sampleData samplePayment sampleOrder (by decide) (by decide)
  exact ⟨(h.2 (by decide)).2.1, (h.2 (by decide)).2.2⟩

/-- C2: when no Payment record matches the `(orderId, razorpayOrderId)` pair,
`processPayment` returns success false with the error "Payment record not
found" and mutates no Payment, Order or Product state (the whole database,
shipment log included, is returned unchanged). -/
theorem processPayment_missing_payment_fails_fast
    (verify : Bool) (ship : ShipmentOutcome) (fault : Bool) (now : Nat)
    (db : DB) (d : ProcessPaymentData)
    (hp : db.payments.find? (paymentMatches d) = none) :
    processPayment verify ship fault now db d =
      (db, { success := false, error := some "Payment record not found",
             paymentStatus := none, message := none }) :=
  processPayment_not_found verify ship fault now db d hp

/-- Witness for C2: a request whose gateway order id matches no Payment row of
the sample database. -/
theorem processPayment_missing_payment_fails_fast_witness :
    processPayment true (ShipmentOutcome.ok "w") false 0 sampleDB mismatchedData =
      (sampleDB, { success := false, error := some "Payment record not found",
                   paymentStatus := none, message := none }) :=
  processPayment_missing_payment_fails_fast true (ShipmentOutcome.ok "w") false 0
    sampleDB mismatchedData (by decide)

/-- C3 fails on the code: `processPayment` never checks the current Payment
status, so running the same verified request twice decrements the stock twice
(10 to 7 to 4 instead of staying at 7) and issues two shipment-creation calls
instead of at most one. -/
theorem processPayment_double_call_double_decrements :
    (processPayment true (ShipmentOutcome.ok "wb1") false 0 sampleDB
        sampleData).1.products.map Product.stock = [7] ∧
    (processPayment true (ShipmentOutcome.ok "wb2") false 0
        (processPayment true (ShipmentOutcome.ok "wb1") false 0 sampleDB sampleData).1
        sampleData).1.products.map Product.stock = [4] ∧
    (processPayment true (ShipmentOutcome.ok "wb2") false 0
        (processPayment true (ShipmentOutcome.ok "wb1") false 0 sampleDB sampleData).1
        sampleData).1.shipmentLog.length = 2 := by decide

/-- C4: when the Payment record is found and verification passes, a failing or
throwing shipment-creation call changes nothing: `processPayment` still
returns success true with no error (totality of the embedding is the
no-exception guarantee), the payment stays COMPLETED and the order stays
CONFIRMED. -/
theorem processPayment_shipment_best_effort
    (verify : Bool) (e m : String) (ship : ShipmentOutcome)
    (_hs : ship = ShipmentOutcome.failed e ∨ ship = ShipmentOutcome.threw m)
    (now : Nat) (db : DB) (d : ProcessPaymentData) (p : Payment) (o : Order)
    (hp : db.payments.find? (paymentMatches d) = some p)
    (ho : db.orders.find? (fun x => x.id == d.orderId) = some o)
    (hv : verificationPasses d verify = true) :
    (processPayment verify ship false now db d).2.success = true ∧
    (processPayment verify ship false now db d).2.error = none ∧
    (∀ q ∈ (processPayment verify ship false now db d).1.payments, q.id = p.id →
        q.status = PaymentStatus.COMPLETED) ∧
    (∀ x ∈ (processPayment verify ship false now db d).1.orders, x.id = d.orderId →
        x.status = OrderStatus.CONFIRMED) := by
  rw [processPayment_eq_of_verified verify ship now db d p o hp ho hv]
  refine ⟨rfl, rfl, ?_, ?_⟩
  · intro q hq hid
    exact (writePaymentStatus_mem_id _ _ _ _ q hq hid).1
  · intro x hx hid
    exact writeOrderStatus_mem_id _ _ _ x hx hid

/-- Witness for C4: a network timeout on shipment creation still yields a
successful payment result. -/
theorem processPayment_shipment_best_effort_witness :
    (processPayment true (ShipmentOutcome.failed "network timeout") false 0
        sampleDB sampleData).2.success = true := by
  have h := processPayment_shipment_best_effort true "network timeout" "x"
    (ShipmentOutcome.failed "network timeout") (Or.inl rfl) 0 sampleDB sampleData
    samplePayment sampleOrder (by decide) (by decide) (by decide)
  exact h.1

/-- C5: the spec scenario. Order 1001 has one item of quantity 3 whose product
has stock 10; a verified `processPayment` call returns success, the payment
becomes COMPLETED, the order CONFIRMED, the stock drops to 7 and exactly one
shipment-creation call is issued. -/
theorem processPayment_happy_scenario :
    (processPayment true (ShipmentOutcome.ok "wb1") false 0 sampleDB
        sampleData).2.success = true ∧
    (processPayment true (ShipmentOutcome.ok "wb1") false 0 sampleDB
        sampleData).1.payments.map Payment.status = [PaymentStatus.COMPLETED] ∧
    (processPayment true (ShipmentOutcome.ok "wb1") false 0 sampleDB
        sampleData).1.orders.map Order.status = [OrderStatus.CONFIRMED] ∧
    (processPayment true (ShipmentOutcome.ok "wb1") false 0 sampleDB
        sampleData).1.products.map Product.stock = [7] ∧
    (processPayment true (ShipmentOutcome.ok "wb1") false 0 sampleDB
        sampleData).1.shipmentLog.length = 1 := by decide

/-- C6 counterexample: refunding a COMPLETED payment succeeds, moves its
status to REFUNDED and keeps its paidAt timestamp, so afterwards a payment has
a non-null paidAt whose status is not COMPLETED: the invariant as the spec
states it fails after `refundPayment`. -/
theorem refund_keeps_paidAt_run :
    (refundPayment completedDB 1).2.success = true ∧
    (refundPayment completedDB 1).1.payments.map (fun p => (p.status, p.paidAt))
        = [(PaymentStatus.REFUNDED, some 5)] ∧
    ¬ paidAtIffCompleted (refundPayment completedDB 1).1 := by decide

/-- C6 (amended): after any of the three operations, a Payment has a non-null
paidAt iff its status is COMPLETED or REFUNDED (a refund keeps the historical
timestamp).  The invariant is preserved from any state satisfying it, payment
ids being unique as the primary key guarantees. -/
theorem paidAt_inv_preserved (db : DB) (hinv : paidAtInv db) (hu : paymentIdsUnique db)
    (rzp : RazorpayOrderOutcome) (npid : Nat) (cd : CreatePaymentOrderData)
    (verify : Bool) (ship : ShipmentOutcome) (fault : Bool) (now : Nat)
    (d : ProcessPaymentData) (rpid : Nat) :
    paidAtInv (createPaymentOrder rzp npid db cd).1 ∧
    paidAtInv (processPayment verify ship fault now db d).1 ∧
    paidAtInv (refundPayment db rpid).1 :=
  ⟨createPaymentOrder_preserves_paidAtInv db hinv rzp npid cd,
   processPayment_preserves_paidAtInv db hinv verify ship fault now d,
   refundPayment_preserves_paidAtInv db hinv hu rpid⟩

/-- Witness for the amended C6: the invariant holds after refunding the
completed sample payment. -/
theorem paidAt_inv_preserved_witness :
    paidAtInv (refundPayment completedDB 1).1 :=
  (paidAt_inv_preserved completedDB (by decide) (by decide)
     (RazorpayOrderOutcome.ok "rzp_order_2") 2
     { orderId := 1001, amount := 2000, currency := "INR" }
     true (ShipmentOutcome.ok "w") false 0 sampleData 1).2.2

/-- C7 fails on the code: the Payment write and the Order write are two
separate updates with no transaction.  With a verified request whose
`prisma.order.update` write throws, the payment is persisted COMPLETED while
the order stays PENDING and the caller only sees a generic failure: the
inconsistent split the claim rules out is reachable. -/
theorem payment_write_persists_when_order_write_fails_run :
    sampleDB.payments.map Payment.status = [PaymentStatus.PENDING] ∧
    (processPayment true (ShipmentOutcome.ok "wb1") true 0 sampleDB
        sampleData).1.payments.map Payment.status = [PaymentStatus.COMPLETED] ∧
    (processPayment true (ShipmentOutcome.ok "wb1") true 0 sampleDB
        sampleData).1.orders.map Order.status = [OrderStatus.PENDING] ∧
    (processPayment true (ShipmentOutcome.ok "wb1") true 0 sampleDB
        sampleData).2.success = false := by decide

/-- C8 counterexample: a Payment already REFUNDED is matched by a later
`processPayment` call and overwritten to FAILED, so the one-way guarantee
that no operation moves a REFUNDED payment to another status is false. -/
theorem refunded_payment_overwritten_run :
    refundedDB.payments.map Payment.status = [PaymentStatus.REFUNDED] ∧
    (processPayment false (ShipmentOutcome.ok "w") false 0 refundedDB
        sampleData).1.payments.map Payment.status = [PaymentStatus.FAILED] := by decide

/-- C8 (amended): `refundPayment` moves a payment to REFUNDED only if its
status is COMPLETED and otherwise returns success false leaving the state
unchanged; but `processPayment` does not guard on the current status, so any
matched payment (REFUNDED included) is overwritten to COMPLETED or FAILED
according to the verification guard alone. -/
theorem refund_guard_and_reprocess_overwrite (db : DB) (rpid : Nat) (p : Payment)
    (hp : db.payments.find? (fun q => q.id == rpid) = some p) :
    (p.status ≠ PaymentStatus.COMPLETED →
       refundPayment db rpid =
         (db, { success := false, error := some "Payment is not completed",
                message := none })) ∧
    (p.status = PaymentStatus.COMPLETED →
       ∀ q ∈ (refundPayment db rpid).1.payments, q.id = rpid →
         q.status = PaymentStatus.REFUNDED) ∧
    (∀ (verify : Bool) (ship : ShipmentOutcome) (fault : Bool) (now : Nat)
        (d : ProcessPaymentData) (p2 : Payment),
       db.payments.find? (paymentMatches d) = some p2 →
       ∀ q ∈ (processPayment verify ship fault now db d).1.payments, q.id = p2.id →
         q.status = (if verificationPasses d verify then PaymentStatus.COMPLETED
                     else PaymentStatus.FAILED)) := by
  refine ⟨?_, ?_, ?_⟩
  · intro hc
    exact refundPayment_eq_of_not_completed db rpid p hp hc
  · intro hc q hq hid
    rw [refundPayment_payments_eq db rpid p hp hc] at hq
    rcases List.mem_map.1 hq with ⟨a, ha, rfl⟩
    by_cases h : a.id = rpid
    · simp [h]
    · simp [h] at hid ⊢
  · intro verify ship fault now d p2 hp2 q hq hid
    rw [processPayment_payments_eq verify ship fault now db d p2 hp2] at hq
    exact (writePaymentStatus_mem_id _ _ _ _ q hq hid).1

/-- Witness for the amended C8: refunding an already refunded payment fails
and changes nothing. -/
theorem refund_guard_and_reprocess_overwrite_witness :
    refundPayment refundedDB 1 =
      (refundedDB, { success := false, error := some "Payment is not completed",
                     message := none }) :=
  (refund_guard_and_reprocess_overwrite refundedDB 1 refundedPayment
    (by decide)).1 (by decide)

/-- C9: for every request and every courier outcome (resolved body of any
shape, rejected call),  `DelhiveryService.createShipment` returns either a
success with at least one normalized package, or a failure with an empty
package list and a non-empty error message; it is total, so nothing throws to
the caller. -/
theorem createShipment_structured_result (req : DelhiveryShipmentRequest)
    (outcome : CourierHttpOutcome) :
    ((DelhiveryService.createShipment req outcome).success = true ∧
       (DelhiveryService.createShipment req outcome).packages ≠ []) ∨
    ((DelhiveryService.createShipment req outcome).success = false ∧
       (DelhiveryService.createShipment req outcome).packages = [] ∧
       ∃ e, (DelhiveryService.createShipment req outcome).error = some e ∧ e ≠ "") := by
  cases outcome with
  | reject m =>
    right
    refine ⟨rfl, rfl, makeRequestErrorMessage m, rfl, makeRequestErrorMessage_ne_empty m⟩
  | respond resp =>
    cases resp with
    | none =>
      right
      exact ⟨rfl, rfl, "Invalid response format from Delhivery", rfl, by decide⟩
    | some r =>
      rcases hpk : r.packages with _ | ⟨_ | ⟨p, ps⟩⟩
      · right
        rcases he : r.error with _ | ⟨e⟩
        · exact ⟨by simp [DelhiveryService.createShipment, hpk, he],
                 by simp [DelhiveryService.createShipment, hpk, he],
                 "Invalid response format from Delhivery",
                 by simp [DelhiveryService.createShipment, hpk, he], by decide⟩
        · by_cases hie : e.isEmpty
          · refine ⟨by simp [DelhiveryService.createShipment, hpk, he, hie],
                    by simp [DelhiveryService.createShipment, hpk, he, hie],
                    "Invalid response format from Delhivery",
                    by simp [DelhiveryService.createShipment, hpk, he, hie], by decide⟩
          · refine ⟨by simp [DelhiveryService.createShipment, hpk, he, hie],
                    by simp [DelhiveryService.createShipment, hpk, he, hie],
                    e, by simp [DelhiveryService.createShipment, hpk, he, hie], ?_⟩
            intro hcontra
            subst hcontra
            exact absurd hie (by decide)
      · right
        rcases he : r.error with _ | ⟨e⟩
        · exact ⟨by simp [DelhiveryService.createShipment, hpk, he],
                 by simp [DelhiveryService.createShipment, hpk, he],
                 "Invalid response format from Delhivery",
                 by simp [DelhiveryService.createShipment, hpk, he], by decide⟩
        · by_cases hie : e.isEmpty
          · refine ⟨by simp [DelhiveryService.createShipment, hpk, he, hie],
                    by simp [DelhiveryService.createShipment, hpk, he, hie],
                    "Invalid response format from Delhivery",
                    by simp [DelhiveryService.createShipment, hpk, he, hie], by decide⟩
          · refine ⟨by simp [DelhiveryService.createShipment, hpk, he, hie],
                    by simp [DelhiveryService.createShipment, hpk, he, hie],
                    e, by simp [DelhiveryService.createShipment, hpk, he, hie], ?_⟩
            intro hcontra
            subst hcontra
            exact absurd hie (by decide)
      · left
        constructor
        · simp [DelhiveryService.createShipment, hpk]
        · simp [DelhiveryService.createShipment, hpk]

/-- C10: when no Payment row exists for the order and the lookup does not
throw, `getPaymentDetails` returns success true with a null payment; the
failing result occurs exactly when the lookup itself throws. -/
theorem getPaymentDetails_null_when_absent (db : DB) (oid : Nat)
    (h : db.payments.find? (fun p => p.orderId == oid) = none) :
    getPaymentDetails none db oid =
      { success := true, payment := none, error := none } ∧
    ∀ fault : Option String,
      ((getPaymentDetails fault db oid).success = false ↔ fault.isSome = true) := by
  constructor
  · unfold getPaymentDetails
    rw [h]
  · intro fault
    cases fault <;> simp [getPaymentDetails]

/-- Witness for C10: no payment exists for order 2 in the sample database. -/
theorem getPaymentDetails_null_when_absent_witness :
    getPaymentDetails none sampleDB 2 =
      { success := true, payment := none, error := none } :=
  (getPaymentDetails_null_when_absent sampleDB 2 (by decide)).1
